import Mathlib

/-!
Verification of the service-component runtime of `pkg/component/runtime/service.go`
(the supervisor that runs a component as an operating-system service).

The embedding is shallow: the Go `serviceRuntime` struct and the local state of
its `Run` loop are bundled into the `SvcState` structure, durations and clock
readings are natural numbers, the Go zero `time.Time` is `Option.none`, and
every side effect of the loop (observations sent on the watch channel,
`CheckinExpected` calls, starting and stopping the connection-info server and
the check-in timer, invocations of `executeServiceCommand`) is recorded as an
explicit `Event` in the order the Go code performs it.  The helper
`ComponentState` value (defined in a sibling file of the repository that is not
part of the sources here) is modelled from the specification's contracts for
it.
-/

/-- The `client.UnitState` values used by the runtime (the six states of §3 of
the specification). -/
inductive UnitState where
  | Starting
  | Healthy
  | Degraded
  | Failed
  | Stopping
  | Stopped
  deriving DecidableEq, Repr

/-- A service operation command specification
(`component.ServiceOperationsCommandSpec`): arguments and a timeout. -/
structure OpSpec where
  args : List String
  timeout : Nat
  deriving DecidableEq, Repr

/-- The `operations` block of a service spec: optional `check`, `install` and
`uninstall` command specs. -/
structure ServiceOperations where
  Check : Option OpSpec
  Install : Option OpSpec
  Uninstall : Option OpSpec
  deriving DecidableEq, Repr

/-- The `timeouts` block of a service spec (`timeouts.checkin`; zero means use
the default). -/
structure ServiceTimeouts where
  Checkin : Nat
  deriving DecidableEq, Repr

/-- The `service` block of an input specification: check-in port, operations
and timeouts. -/
structure ServiceSpec where
  CPort : Nat
  Operations : ServiceOperations
  Timeouts : ServiceTimeouts
  deriving DecidableEq, Repr

/-- The inner input spec carrying the component name and the optional service
block (`comp.InputSpec.Spec` in the Go code). -/
structure InputSpecData where
  Name : String
  Service : Option ServiceSpec
  deriving DecidableEq, Repr

/-- The input runtime spec: binary name and path plus the inner spec
(`comp.InputSpec` in the Go code). -/
structure InputRuntimeSpec where
  BinaryName : String
  BinaryPath : String
  Spec : InputSpecData
  deriving DecidableEq, Repr

/-- A component descriptor.  `ShipperSpec` and `InputSpec` are optional
pointers in the Go code; `Units` is the component's unit topology (key and
expected unit state), used only by the reconcile helpers. -/
structure Component where
  ShipperSpec : Option Unit
  InputSpec : Option InputRuntimeSpec
  Units : List (String × UnitState)
  deriving DecidableEq, Repr

/-- One tracked unit of the component state: its expected and its observed
unit state. -/
structure UnitRec where
  expected : UnitState
  observed : UnitState
  deriving DecidableEq, Repr

/-- Modelled from the spec: `ComponentState`, the authoritative observed state
(§3): overall `State`, human-readable `Message`, `ExpectedState`, and per-unit
expected/observed records.  The concrete `ComponentState` implementation is
not among the sources; its fields and mutation helpers follow §3 and §4.1 of
the specification. -/
structure ComponentState where
  State : UnitState
  Message : String
  ExpectedState : UnitState
  units : List (String × UnitRec)
  deriving DecidableEq, Repr

/-- Modelled from the spec (§4.1): `compState(state, msg) -> changed` sets
`State` and `Message` only if either differs and reports whether a change
occurred. -/
def ComponentState.compState (cs : ComponentState) (st : UnitState) (msg : String) :
    ComponentState × Bool :=
  if cs.State = st ∧ cs.Message = msg then (cs, false)
  else ({ cs with State := st, Message := msg }, true)

/-- Modelled from the spec (§4.1): `forceState(state, msg) -> changed` is like
`compState`; the additional clearing of transient per-unit progress mentioned
by the spec is not represented because no per-unit progress field is part of
this model and no claim refers to it. -/
def ComponentState.forceState (cs : ComponentState) (st : UnitState) (msg : String) :
    ComponentState × Bool :=
  if cs.State = st ∧ cs.Message = msg then (cs, false)
  else ({ cs with State := st, Message := msg }, true)

/-- Modelled from the spec (§4.1): `forceExpectedState(state)` sets
`ExpectedState` unconditionally. -/
def ComponentState.forceExpectedState (cs : ComponentState) (st : UnitState) : ComponentState :=
  { cs with ExpectedState := st }

/-- A check-in payload observed from the managed service: per-unit observed
states keyed by unit key. -/
structure CheckinObs where
  units : List (String × UnitState)
  deriving DecidableEq, Repr

/-- Look up a unit state by key in an association list. -/
def lookupUnit (l : List (String × UnitState)) (k : String) : Option UnitState :=
  (l.find? (fun p => p.1 = k)).map (fun p => p.2)

/-- Modelled from the spec (§4.1): `syncCheckin(observed) -> changed` merges a
check-in payload into the observed snapshot: each tracked unit mentioned in
the payload takes the reported observed state; `changed` reports whether any
observed state differed. -/
def ComponentState.syncCheckin (cs : ComponentState) (obs : CheckinObs) :
    ComponentState × Bool :=
  let newUnits := cs.units.map (fun p =>
    match lookupUnit obs.units p.1 with
    | some st => (p.1, { p.2 with observed := st })
    | none => p)
  if newUnits = cs.units then (cs, false) else ({ cs with units := newUnits }, true)

/-- Modelled from the spec (§4.1): `unsettled()` is true iff any unit's
expected and observed states differ. -/
def ComponentState.unsettled (cs : ComponentState) : Bool :=
  cs.units.any (fun p => decide (p.2.expected ≠ p.2.observed))

/-- Modelled from the spec (§4.1): `cleanupStopped()` prunes every tracked
unit whose observed state has reached `Stopped` and is true iff some unit was
pruned by this call. -/
def ComponentState.cleanupStopped (cs : ComponentState) : ComponentState × Bool :=
  let keep := cs.units.filter (fun p => decide (p.2.observed ≠ UnitState.Stopped))
  if keep = cs.units then (cs, false) else ({ cs with units := keep }, true)

/-- Modelled from the spec (§4.1): `toCheckinExpected()` materializes the
expected snapshot sent to the communicator; in this model the snapshot is the
component state itself. -/
def ComponentState.toCheckinExpected (cs : ComponentState) : ComponentState := cs

/-- Modelled from the spec (§4.1): `syncExpected(newComp) -> sendExpected`
reconciles the expected side of the tracked units with a new component
revision; returns true iff the expected snapshot changed.  It does not touch
`State`. -/
def ComponentState.syncExpected (cs : ComponentState) (newComp : Component) :
    ComponentState × Bool :=
  let newUnits := cs.units.map (fun p =>
    match lookupUnit newComp.Units p.1 with
    | some st => (p.1, { p.2 with expected := st })
    | none => p)
  if newUnits = cs.units then (cs, false) else ({ cs with units := newUnits }, true)

/-- Modelled from the spec (§4.1): `syncUnits(newComp) -> changed` reconciles
the unit topology with the new revision: units absent from the revision are
dropped, new units are added (observed initialized to `Starting`); returns
true iff the observed snapshot changed.  It does not touch `State`. -/
def ComponentState.syncUnits (cs : ComponentState) (newComp : Component) :
    ComponentState × Bool :=
  let kept := cs.units.filter (fun p => (lookupUnit newComp.Units p.1).isSome)
  let added := newComp.Units.filterMap (fun q =>
    if (cs.units.find? (fun p => p.1 = q.1)).isSome then none
    else some (q.1, UnitRec.mk q.2 UnitState.Starting))
  let newUnits := kept ++ added
  if newUnits = cs.units then (cs, false) else ({ cs with units := newUnits }, true)

/-- Modelled from the spec: `newComponentState(&comp)` builds the initial
component state from the component's units; the constructor of the runtime
immediately overrides `State` and `Message` via `compState`, so their initial
values here are not load-bearing. -/
def newComponentState (comp : Component) : ComponentState :=
  { State := UnitState.Starting
    Message := ""
    ExpectedState := UnitState.Healthy
    units := comp.Units.map (fun q => (q.1, UnitRec.mk q.2 UnitState.Starting)) }

/-- `defaultCheckServiceStatusInterval`: 30 seconds (time is modelled in
seconds). -/
def defaultCheckServiceStatusInterval : Nat := 30

/-- Modelled from the spec (§4.2.2): `maxCheckinMisses` is a compile-time
constant of the core, not among the sources; the spec recommends 3 and
scenario S4 fixes it at 3. -/
def maxCheckinMisses : Nat := 3

/-- Modelled from the spec: `stateUnknownMessage`, the message `compState`
uses for states other than `Healthy` and `Degraded`; its concrete text is
never reached by the claims (the watchdog only derives `Healthy` and
`Degraded` through `compState`). -/
def stateUnknownMessage : String := "Unknown state"

/-- `comp.InputSpec.Spec.Name` (the constructor guarantees `InputSpec` is
present; absent specs default to the empty name). -/
def Component.svcName (c : Component) : String :=
  match c.InputSpec with
  | some i => i.Spec.Name
  | none => ""

/-- `comp.InputSpec.BinaryPath` (defaulting when absent). -/
def Component.binaryPath (c : Component) : String :=
  match c.InputSpec with
  | some i => i.BinaryPath
  | none => ""

/-- The service block `comp.InputSpec.Spec.Service`. -/
def Component.service (c : Component) : Option ServiceSpec :=
  match c.InputSpec with
  | some i => i.Spec.Service
  | none => none

/-- `comp.InputSpec.Spec.Service.CPort` (defaulting when absent). -/
def Component.cport (c : Component) : Nat :=
  match c.service with
  | some sv => sv.CPort
  | none => 0

/-- The `check` operation spec of the component's service block. -/
def Component.checkSpec (c : Component) : Option OpSpec :=
  match c.service with
  | some sv => sv.Operations.Check
  | none => none

/-- The `install` operation spec of the component's service block. -/
def Component.installSpec (c : Component) : Option OpSpec :=
  match c.service with
  | some sv => sv.Operations.Install
  | none => none

/-- The `uninstall` operation spec of the component's service block. -/
def Component.uninstallSpec (c : Component) : Option OpSpec :=
  match c.service with
  | some sv => sv.Operations.Uninstall
  | none => none

/-- Errors returned by the operation wrappers: the sentinel
`ErrOperationSpecUndefined` or an execution failure carrying its message. -/
inductive ErrV where
  | opSpecUndefined
  | execErr (msg : String)
  deriving DecidableEq, Repr

/-- `err.Error()`: the message text of an error. -/
def ErrV.message : ErrV → String
  | ErrV.opSpecUndefined => "operation spec undefined"
  | ErrV.execErr m => m

/-- `executeServiceCommandFunc`: given the binary path, the operation spec and
the retry flag, either succeed (`none`) or fail with a message (`some msg`). -/
def ExecFn : Type := String → OpSpec → Bool → Option String

/-- An observable effect of the supervisor, in the order the Go code performs
it: an observation on the watch channel (`sendObserved`), a `CheckinExpected`
call on the communicator, a `forceState`/`compState` mutator call (recording
whether it reported a change and its target state and message), the
connection-info server starting or stopping, the check-in timer stopping or
being re-armed, and an `executeServiceCommand` invocation. -/
inductive Event where
  | observed (cs : ComponentState)
  | checkinExpected (cs : ComponentState)
  | mut (force : Bool) (changed : Bool) (st : UnitState) (msg : String)
  | cisStarted (port : Nat)
  | cisStopped
  | timerStopped
  | timerReset (period : Nat)
  | execCall (path : String) (op : OpSpec) (retry : Bool)
  deriving DecidableEq, Repr

/-- Whether an event is an observation on the watch channel. -/
def Event.isObserved : Event → Bool
  | Event.observed _ => true
  | _ => false

/-- Whether an event is a `CheckinExpected` call. -/
def Event.isCheckinExpected : Event → Bool
  | Event.checkinExpected _ => true
  | _ => false

/-- Whether an event is a `forceState`/`compState` mutator call. -/
def Event.isMut : Event → Bool
  | Event.mut _ _ _ _ => true
  | _ => false

/-- Whether an event is an `executeServiceCommand` invocation. -/
def Event.isExecCall : Event → Bool
  | Event.execCall _ _ _ => true
  | _ => false

/-- True unless the event is an exec invocation whose retry flag differs from
`b`: used to state that every operation call in an event list carries a given
retry flag. -/
def Event.execRetryIs (b : Bool) : Event → Bool
  | Event.execCall _ _ r => decide (r = b)
  | _ => true

/-- True unless the event is an observation whose payload differs from
`target`: used to state that every observation in an event list is a given
snapshot. -/
def Event.obsAgrees (target : ComponentState) : Event → Bool
  | Event.observed cs => decide (cs = target)
  | _ => true

/-- The supervisor together with the local state of its `Run` loop: the
component, the owned `ComponentState`, `lastCheckin` (`none` is the zero
time), `missedCheckins`, the check-in timer (`some period` when armed) and
the connection-info server (`some port` when running). -/
structure SvcState where
  comp : Component
  state : ComponentState
  lastCheckin : Option Nat
  missedCheckins : Nat
  timer : Option Nat
  cis : Option Nat
  deriving DecidableEq, Repr

/-- `s.name()`: the component's service name. -/
def SvcState.name (s : SvcState) : String := s.comp.svcName

/-- `s.checkinPeriod()`: the configured check-in timeout, defaulting to
`defaultCheckServiceStatusInterval` when zero. -/
def SvcState.checkinPeriod (s : SvcState) : Nat :=
  let p := match s.comp.service with
    | some sv => sv.Timeouts.Checkin
    | none => 0
  if p = 0 then defaultCheckServiceStatusInterval else p

/-- `isRunning`: the service counts as running unless its state is `Stopping`
or `Stopped`. -/
def isRunning (cs : ComponentState) : Bool :=
  decide (cs.State ≠ UnitState.Stopping) && decide (cs.State ≠ UnitState.Stopped)

/-- `forceCompState`: apply `forceState` and emit an observation exactly when
it reported a change; the mutator call itself is recorded as an event. -/
def SvcState.forceCompState (s : SvcState) (st : UnitState) (msg : String) :
    SvcState × List Event :=
  let r := s.state.forceState st msg
  ({ s with state := r.1 },
    [Event.mut true r.2 st msg] ++ if r.2 then [Event.observed r.1] else [])

/-- `compState` of the runtime: derive the message from the state and the
missed-check-in count (singular at one miss), apply `ComponentState.compState`
and emit an observation exactly when it reported a change. -/
def SvcState.compStateMissed (s : SvcState) (st : UnitState) (missed : Nat) :
    SvcState × List Event :=
  let msg :=
    if st = UnitState.Healthy then
      "Healthy: communicating with " ++ s.name ++ " service"
    else if st = UnitState.Degraded then
      if missed = 1 then "Degraded: " ++ s.name ++ " service missed 1 check-in"
      else "Degraded: " ++ s.name ++ " missed " ++ toString missed ++ " check-ins"
    else stateUnknownMessage
  let r := s.state.compState st msg
  ({ s with state := r.1 },
    [Event.mut false r.2 st msg] ++ if r.2 then [Event.observed r.1] else [])

/-- `check`: return `ErrOperationSpecUndefined` when the check spec is absent,
otherwise invoke `executeServiceCommand` without retry; the invocation is
recorded as an event. -/
def Component.check (c : Component) (exec : ExecFn) : Option ErrV × List Event :=
  match c.checkSpec with
  | none => (some ErrV.opSpecUndefined, [])
  | some op =>
    match exec c.binaryPath op false with
    | none => (none, [Event.execCall c.binaryPath op false])
    | some m => (some (ErrV.execErr m), [Event.execCall c.binaryPath op false])

/-- `install`: return `ErrOperationSpecUndefined` when the install spec is
absent, otherwise invoke `executeServiceCommand` with retry. -/
def Component.install (c : Component) (exec : ExecFn) : Option ErrV × List Event :=
  match c.installSpec with
  | none => (some ErrV.opSpecUndefined, [])
  | some op =>
    match exec c.binaryPath op true with
    | none => (none, [Event.execCall c.binaryPath op true])
    | some m => (some (ErrV.execErr m), [Event.execCall c.binaryPath op true])

/-- `uninstallService`: return `ErrOperationSpecUndefined` when the uninstall
spec is absent, otherwise invoke `executeServiceCommand` with retry. -/
def uninstallService (c : Component) (exec : ExecFn) : Option ErrV × List Event :=
  match c.uninstallSpec with
  | none => (some ErrV.opSpecUndefined, [])
  | some op =>
    match exec c.binaryPath op true with
    | none => (none, [Event.execCall c.binaryPath op true])
    | some m => (some (ErrV.execErr m), [Event.execCall c.binaryPath op true])

/-- `newServiceRuntime(comp)`: reject shippers, require an input spec and a
service block, then build the runtime and set its initial state to `Stopped`
via `compState`. -/
def newServiceRuntime (comp : Component) : Except String SvcState :=
  if comp.ShipperSpec.isSome then
    Except.error "service runtime not supported for a shipper specification"
  else
    match comp.InputSpec with
    | none => Except.error "service runtime requires an input specification to be defined"
    | some ispec =>
      match ispec.Spec.Service with
      | none => Except.error "must have service defined in specification"
      | some _ =>
        let st0 := newComponentState comp
        let r := st0.compState UnitState.Stopped ("Stopped: " ++ comp.svcName ++ " service")
        Except.ok
          { comp := comp
            state := r.1
            lastCheckin := none
            missedCheckins := 0
            timer := none
            cis := none }

/-- `start`: force the state to `Starting`, run `check` (no retry) and, when
it fails, `install` (with retry); a failing install yields the wrapped error
message returned to the loop. -/
def SvcState.startSvc (s : SvcState) (exec : ExecFn) :
    SvcState × List Event × Option String :=
  let r := s.forceCompState UnitState.Starting
    ("Starting: " ++ s.name ++ " service runtime")
  let chk := s.comp.check exec
  match chk.1 with
  | none => (r.1, r.2 ++ chk.2, none)
  | some _ =>
    let ins := s.comp.install exec
    match ins.1 with
    | none => (r.1, r.2 ++ chk.2 ++ ins.2, none)
    | some e =>
      (r.1, r.2 ++ chk.2 ++ ins.2,
        some ("failed install " ++ s.name ++ " service: " ++ e.message))

/-- The `cisStop` closure of the loop: stop the connection-info server if one
is running (recorded as an event). -/
def cisStopEvents (cis : Option Nat) : List Event :=
  match cis with
  | some _ => [Event.cisStopped]
  | none => []

/-- The `actionStart` branch of the `Run` loop: reset `lastCheckin` and
`missedCheckins`, stop the check-in timer and any prior connection-info
server, start a new connection-info server on the configured port (its
outcome is the `cisRes` parameter: `none` means it started, `some m` means it
failed with message `m`), then run `start`; any error stops the server again
and forces `Failed`, success re-arms the check-in timer. -/
def handleActionStart (s : SvcState) (cisRes : Option String) (exec : ExecFn) :
    SvcState × List Event :=
  let ev0 := [Event.timerStopped] ++ cisStopEvents s.cis
  let s0 : SvcState :=
    { s with lastCheckin := none, missedCheckins := 0, timer := none, cis := none }
  match cisRes with
  | some m =>
    let r := s0.forceCompState UnitState.Failed
      ("failed to start connection info service " ++ s.name ++ ": " ++ m)
    (r.1, ev0 ++ r.2)
  | none =>
    let s1 : SvcState := { s0 with cis := some s.comp.cport }
    let ev1 := [Event.cisStarted s.comp.cport]
    let st := s1.startSvc exec
    match st.2.2 with
    | none =>
      ({ st.1 with timer := some s.checkinPeriod },
        ev0 ++ ev1 ++ st.2.1 ++ [Event.timerReset s.checkinPeriod])
    | some m =>
      let s2 : SvcState := { st.1 with cis := none }
      let ev2 := cisStopEvents st.1.cis
      let r := s2.forceCompState UnitState.Failed m
      (r.1, ev0 ++ ev1 ++ st.2.1 ++ ev2 ++ r.2)

/-- `stop`: under teardown, when running, a service that has checked in
(historically, or during the bounded await whose outcome is the `awaitRes`
parameter) is sent `CheckinExpected` with expected state `Stopping`, then
`uninstall` runs and its error is dropped; in all cases the state is finally
forced to `Stopped`. -/
def SvcState.stopSvc (s : SvcState) (teardown : Bool) (awaitRes : Bool) (exec : ExecFn) :
    SvcState × List Event :=
  let r1 : SvcState × List Event :=
    if teardown then
      let checkedIn := s.lastCheckin.isSome
      let rA : SvcState × List Event :=
        if isRunning s.state then
          let checkedIn2 := if checkedIn then true else awaitRes
          if checkedIn2 then
            let cs := s.state.forceExpectedState UnitState.Stopping
            ({ s with state := cs }, [Event.checkinExpected cs.toCheckinExpected])
          else (s, [])
        else (s, [])
      let u := uninstallService s.comp exec
      (rA.1, rA.2 ++ u.2)
    else (s, [])
  let r2 := r1.1.forceCompState UnitState.Stopped
    ("Stopped: " ++ s.name ++ " service runtime")
  (r2.1, r1.2 ++ r2.2)

/-- The `actionStop` and `actionTeardown` branch of the `Run` loop: stop the
check-in timer and the connection-info server, then run `stop` (with the
teardown flag set for `actionTeardown`). -/
def handleActionStop (s : SvcState) (teardown : Bool) (awaitRes : Bool) (exec : ExecFn) :
    SvcState × List Event :=
  let ev0 := [Event.timerStopped] ++ cisStopEvents s.cis
  let s0 : SvcState := { s with timer := none, cis := none }
  let r := s0.stopSvc teardown awaitRes exec
  (r.1, ev0 ++ r.2)

/-- The first-observation fix of `processCheckin`: a component still in
`Starting` is set directly to `Healthy` (a plain field assignment in the
source, not a `forceState`/`compState` call); returns the new state and the
changed flag. -/
def ComponentState.startingFix (cs : ComponentState) (name : String) :
    ComponentState × Bool :=
  if cs.State = UnitState.Starting then
    ({ cs with State := UnitState.Healthy
               Message := "Healthy: communicating with " ++ name ++ " service" }, true)
  else (cs, false)

/-- `processCheckin`: apply the `Starting` fix, ignore the check-in unless
running, record `lastCheckin := now`, merge the observed units, send
`CheckinExpected` on the first check-in ever or when unsettled after the
merge, observe when anything changed, and observe again when
`cleanupStopped` pruned a unit. -/
def processCheckinFn (s : SvcState) (checkin : CheckinObs) (now : Nat) :
    SvcState × List Event :=
  let f := s.state.startingFix s.name
  if isRunning f.1 then
    let sendExpected0 := s.lastCheckin.isNone
    let m := f.1.syncCheckin checkin
    let changed := f.2 || m.2
    let sendExpected := sendExpected0 || m.1.unsettled
    let evExp := if sendExpected then [Event.checkinExpected m.1.toCheckinExpected] else []
    let evObs1 := if changed then [Event.observed m.1] else []
    let cl := m.1.cleanupStopped
    let evObs2 := if cl.2 then [Event.observed cl.1] else []
    ({ s with state := cl.1, lastCheckin := some now }, evExp ++ evObs1 ++ evObs2)
  else
    ({ s with state := f.1 }, [])

/-- The missed-check-in count computed by a watchdog tick: increment when
`lastCheckin` is zero or the last check-in is older than the period, reset to
zero otherwise. -/
def SvcState.nextMissed (s : SvcState) (now : Nat) : Nat :=
  match s.lastCheckin with
  | none => s.missedCheckins + 1
  | some t => if now - t > s.checkinPeriod then s.missedCheckins + 1 else 0

/-- `checkStatus`: when running, update `missedCheckins` and derive the state:
zero misses give `Healthy`, fewer than `maxCheckinMisses` give `Degraded`,
and at least `maxCheckinMisses` force `Failed`. -/
def checkStatusFn (s : SvcState) (now : Nat) : SvcState × List Event :=
  if isRunning s.state then
    let missed := s.nextMissed now
    let s1 : SvcState := { s with missedCheckins := missed }
    if missed = 0 then s1.compStateMissed UnitState.Healthy missed
    else if missed < maxCheckinMisses then s1.compStateMissed UnitState.Degraded missed
    else s1.forceCompState UnitState.Failed
      ("Failed: " ++ s.name ++ " service missed " ++ toString maxCheckinMisses ++ " check-ins")
  else (s, [])

/-- `processNewComp`: reconcile expected and observed sides with the new
revision, send `CheckinExpected` when the expected side changed or the state
is unsettled, and observe when the observed side changed. -/
def processNewCompFn (s : SvcState) (newComp : Component) : SvcState × List Event :=
  let e := s.state.syncExpected newComp
  let u := e.1.syncUnits newComp
  let evExp := if e.2 || u.1.unsettled then [Event.checkinExpected u.1.toCheckinExpected] else []
  let evObs := if u.2 then [Event.observed u.1] else []
  ({ s with state := u.1 }, evExp ++ evObs)

/-- Iterate the watchdog: `k` ticks of `checkStatus` with clock readings
`nows 0, nows 1, ...`, accumulating the emitted events. -/
def tickN : Nat → (Nat → Nat) → SvcState → SvcState × List Event
  | 0, _, s => (s, [])
  | k + 1, nows, s =>
    let r := tickN k nows s
    let r2 := checkStatusFn r.1 (nows k)
    (r2.1, r.2 ++ r2.2)

/-- The supervisor state after `k` watchdog ticks. -/
def afterTicks (k : Nat) (nows : Nat → Nat) (s : SvcState) : SvcState :=
  (tickN k nows s).1

/-- One input to the supervisor loop: an action (with the environment
outcomes it depends on), a component update, an observed check-in, or a
watchdog tick. -/
inductive StepInput where
  | actionStart (cisRes : Option String) (exec : ExecFn)
  | actionStop (exec : ExecFn)
  | actionTeardown (awaitRes : Bool) (exec : ExecFn)
  | newComp (c : Component)
  | checkin (c : CheckinObs) (now : Nat)
  | tick (now : Nat)

/-- One iteration of the `Run` loop on the given input. -/
def stepRun (inp : StepInput) (s : SvcState) : SvcState × List Event :=
  match inp with
  | StepInput.actionStart cisRes exec => handleActionStart s cisRes exec
  | StepInput.actionStop exec => handleActionStop s false false exec
  | StepInput.actionTeardown a exec => handleActionStop s true a exec
  | StepInput.newComp c => processNewCompFn s c
  | StepInput.checkin c now => processCheckinFn s c now
  | StepInput.tick now => checkStatusFn s now

/-- The three user actions delivered on the action channel. -/
inductive ActionMode where
  | start
  | stop
  | teardown
  deriving DecidableEq, Repr

/-- A size-1 buffered channel: its buffer holds at most one value. -/
structure Chan1 (α : Type) where
  buf : Option α

/-- The non-blocking receive of the `select`/`default` drain: empty the
buffer. -/
def Chan1.drain {α : Type} (_ : Chan1 α) : Chan1 α := { buf := none }

/-- Send on the channel: succeeds iff the buffer is empty, otherwise the
sender would block. -/
def Chan1.send {α : Type} (c : Chan1 α) (v : α) : Option (Chan1 α) :=
  match c.buf with
  | none => some { buf := some v }
  | some _ => none

/-- The drain-then-send pattern of the control surface; the boolean reports
whether the send would have blocked. -/
def enqueueLatest {α : Type} (c : Chan1 α) (v : α) : Chan1 α × Bool :=
  match c.drain.send v with
  | some c2 => (c2, false)
  | none => (c, true)

/-- The runtime's two control channels: the action channel and the
component-update channel. -/
structure RChans where
  actionCh : Chan1 ActionMode
  compCh : Chan1 Component

/-- `Start()`: drain the action channel, enqueue `actionStart`, return `nil`;
the booleans report (blocked, error). -/
def RChans.start (r : RChans) : RChans × Bool × Option String :=
  let q := enqueueLatest r.actionCh ActionMode.start
  ({ r with actionCh := q.1 }, q.2, none)

/-- `Stop()`: drain the action channel, enqueue `actionStop`, return `nil`. -/
def RChans.stop (r : RChans) : RChans × Bool × Option String :=
  let q := enqueueLatest r.actionCh ActionMode.stop
  ({ r with actionCh := q.1 }, q.2, none)

/-- `Teardown()`: drain the action channel, enqueue `actionTeardown`, return
`nil`. -/
def RChans.teardown (r : RChans) : RChans × Bool × Option String :=
  let q := enqueueLatest r.actionCh ActionMode.teardown
  ({ r with actionCh := q.1 }, q.2, none)

/-- `Update(comp)`: drain the component channel, enqueue the new revision,
return `nil`. -/
def RChans.update (r : RChans) (c : Component) : RChans × Bool × Option String :=
  let q := enqueueLatest r.compCh c
  ({ r with compCh := q.1 }, q.2, none)

/-- Follows the spec's words (§4.2 and §7): construction rejects a component
unless it is not a shipper, it carries an `InputSpec`, and that spec contains
a `Service` block.  Stated from the spec to compare with `newServiceRuntime`
as translated from the source. -/
def rejectedBySpec (c : Component) : Bool :=
  c.ShipperSpec.isSome || c.InputSpec.isNone ||
    (match c.InputSpec with
     | some i => i.Spec.Service.isNone
     | none => true)

/-- The `check` operation of the endpoint fixture. -/
def opCheck0 : OpSpec := { args := ["verify"], timeout := 30 }

/-- The `install` operation of the endpoint fixture. -/
def opInstall0 : OpSpec := { args := ["install"], timeout := 600 }

/-- The `uninstall` operation of the endpoint fixture. -/
def opUninstall0 : OpSpec := { args := ["uninstall"], timeout := 600 }

/-- The service block of the endpoint fixture: port 6788, all three
operations, default check-in timeout. -/
def svcSpec0 : ServiceSpec :=
  { CPort := 6788
    Operations := { Check := some opCheck0, Install := some opInstall0,
                    Uninstall := some opUninstall0 }
    Timeouts := { Checkin := 0 } }

/-- The endpoint component fixture of the spec's scenarios. -/
def comp0 : Component :=
  { ShipperSpec := none
    InputSpec := some
      { BinaryName := "endpoint-security"
        BinaryPath := "/opt/endpoint/endpoint-security"
        Spec := { Name := "endpoint", Service := some svcSpec0 } }
    Units := [] }

/-- An endpoint-like component whose service block declares none of the three
operations. -/
def compNoOps : Component :=
  { ShipperSpec := none
    InputSpec := some
      { BinaryName := "endpoint-security"
        BinaryPath := "/opt/endpoint/endpoint-security"
        Spec := { Name := "endpoint"
                  Service := some
                    { CPort := 6788
                      Operations := { Check := none, Install := none, Uninstall := none }
                      Timeouts := { Checkin := 0 } } } }
    Units := [] }

/-- An execution function that always succeeds. -/
def execOk : ExecFn := fun _ _ _ => none

/-- An execution function that always fails. -/
def execFail : ExecFn := fun _ _ _ => some "exit status 1"

/-- A healthy supervisor fixture for the endpoint component (as after the
first check-in of scenario S1), with the watchdog armed and no recorded
check-in. -/
def sHealthy : SvcState :=
  { comp := comp0
    state := { State := UnitState.Healthy
               Message := "Healthy: communicating with endpoint service"
               ExpectedState := UnitState.Healthy
               units := [] }
    lastCheckin := none
    missedCheckins := 0
    timer := some 30
    cis := some 6788 }

/-- A supervisor fixture still in `Starting` (before any check-in). -/
def sStarting : SvcState :=
  { comp := comp0
    state := { State := UnitState.Starting
               Message := "Starting: endpoint service runtime"
               ExpectedState := UnitState.Healthy
               units := [] }
    lastCheckin := none
    missedCheckins := 0
    timer := some 30
    cis := some 6788 }

/-- A supervisor fixture that the watchdog has already degraded once. -/
def sDegraded1 : SvcState :=
  { comp := comp0
    state := { State := UnitState.Degraded
               Message := "Degraded: endpoint service missed 1 check-in"
               ExpectedState := UnitState.Healthy
               units := [] }
    lastCheckin := none
    missedCheckins := 1
    timer := some 30
    cis := some 6788 }

/-- A supervisor fixture that the watchdog has forced to `Failed`. -/
def sFailed : SvcState :=
  { comp := comp0
    state := { State := UnitState.Failed
               Message := "Failed: endpoint service missed 3 check-ins"
               ExpectedState := UnitState.Healthy
               units := [] }
    lastCheckin := none
    missedCheckins := 3
    timer := some 30
    cis := some 6788 }

/-- A healthy supervisor fixture that has recorded a check-in at time 5. -/
def sHealthyC : SvcState :=
  { comp := comp0
    state := { State := UnitState.Healthy
               Message := "Healthy: communicating with endpoint service"
               ExpectedState := UnitState.Healthy
               units := [] }
    lastCheckin := some 5
    missedCheckins := 0
    timer := some 30
    cis := some 6788 }

/-- The `compNoOps` supervisor fixture (for the missing-spec claims). -/
def sNoOps : SvcState :=
  { comp := compNoOps
    state := { State := UnitState.Stopped
               Message := "Stopped: endpoint service"
               ExpectedState := UnitState.Healthy
               units := [] }
    lastCheckin := none
    missedCheckins := 0
    timer := none
    cis := none }

theorem ComponentState.compState_fst_State (cs : ComponentState) (st : UnitState) (msg : String) :
    (cs.compState st msg).1.State = st := by
  unfold ComponentState.compState
  split
  case isTrue h => exact h.1
  case isFalse h => rfl

theorem ComponentState.compState_fst_Message (cs : ComponentState) (st : UnitState) (msg : String) :
    (cs.compState st msg).1.Message = msg := by
  unfold ComponentState.compState
  split
  case isTrue h => exact h.2
  case isFalse h => rfl

theorem ComponentState.forceState_fst_State (cs : ComponentState) (st : UnitState) (msg : String) :
    (cs.forceState st msg).1.State = st := by
  unfold ComponentState.forceState
  split
  case isTrue h => exact h.1
  case isFalse h => rfl

theorem ComponentState.forceState_fst_Message (cs : ComponentState) (st : UnitState) (msg : String) :
    (cs.forceState st msg).1.Message = msg := by
  unfold ComponentState.forceState
  split
  case isTrue h => exact h.2
  case isFalse h => rfl

theorem ComponentState.syncCheckin_State (cs : ComponentState) (obs : CheckinObs) :
    (cs.syncCheckin obs).1.State = cs.State := by
  unfold ComponentState.syncCheckin
  dsimp only
  split <;> rfl

theorem ComponentState.cleanupStopped_State (cs : ComponentState) :
    (cs.cleanupStopped).1.State = cs.State := by
  unfold ComponentState.cleanupStopped
  dsimp only
  split <;> rfl

theorem ComponentState.syncExpected_State (cs : ComponentState) (c : Component) :
    (cs.syncExpected c).1.State = cs.State := by
  unfold ComponentState.syncExpected
  dsimp only
  split <;> rfl

theorem ComponentState.syncUnits_State (cs : ComponentState) (c : Component) :
    (cs.syncUnits c).1.State = cs.State := by
  unfold ComponentState.syncUnits
  dsimp only
  split <;> rfl

theorem SvcState.forceCompState_state_State (s : SvcState) (st : UnitState) (msg : String) :
    (s.forceCompState st msg).1.state.State = st :=
  ComponentState.forceState_fst_State s.state st msg

theorem SvcState.forceCompState_state_Message (s : SvcState) (st : UnitState) (msg : String) :
    (s.forceCompState st msg).1.state.Message = msg :=
  ComponentState.forceState_fst_Message s.state st msg

theorem SvcState.compStateMissed_state_State (s : SvcState) (st : UnitState) (missed : Nat) :
    (s.compStateMissed st missed).1.state.State = st :=
  ComponentState.compState_fst_State s.state st _

theorem SvcState.forceCompState_missed (s : SvcState) (st : UnitState) (msg : String) :
    (s.forceCompState st msg).1.missedCheckins = s.missedCheckins := rfl

theorem SvcState.forceCompState_comp (s : SvcState) (st : UnitState) (msg : String) :
    (s.forceCompState st msg).1.comp = s.comp := rfl

theorem SvcState.forceCompState_lastCheckin (s : SvcState) (st : UnitState) (msg : String) :
    (s.forceCompState st msg).1.lastCheckin = s.lastCheckin := rfl

theorem SvcState.compStateMissed_missed (s : SvcState) (st : UnitState) (missed : Nat) :
    (s.compStateMissed st missed).1.missedCheckins = s.missedCheckins := rfl

theorem SvcState.compStateMissed_comp (s : SvcState) (st : UnitState) (missed : Nat) :
    (s.compStateMissed st missed).1.comp = s.comp := rfl

theorem SvcState.compStateMissed_lastCheckin (s : SvcState) (st : UnitState) (missed : Nat) :
    (s.compStateMissed st missed).1.lastCheckin = s.lastCheckin := rfl

theorem cisStopEvents_all_obsAgrees (c : Option Nat) (t : ComponentState) :
    (cisStopEvents c).all (Event.obsAgrees t) = true := by
  cases c <;> rfl

theorem uninstallService_all_obsAgrees (c : Component) (exec : ExecFn) (t : ComponentState) :
    ((uninstallService c exec).2).all (Event.obsAgrees t) = true := by
  unfold uninstallService
  split
  · rfl
  · split <;> rfl

/-- C4: `Start()`, `Stop()`, `Teardown()` and `Update(comp)` always return
`nil` and never block: each drains its size-1 buffered channel and then
enqueues its own value, so `Start()` followed by `Stop()` leaves exactly
`actionStop` in the channel (the pending `actionStart` is discarded), and a
second `Update` replaces a pending component revision. -/
theorem c4_control_surface (r : RChans) (c1 c2 : Component) :
    (r.start).2.2 = none ∧ (r.start).2.1 = false ∧
    (r.start).1.actionCh.buf = some ActionMode.start ∧
    (r.stop).2.2 = none ∧ (r.stop).2.1 = false ∧
    (r.stop).1.actionCh.buf = some ActionMode.stop ∧
    (r.teardown).2.2 = none ∧ (r.teardown).2.1 = false ∧
    (r.teardown).1.actionCh.buf = some ActionMode.teardown ∧
    (r.update c1).2.2 = none ∧ (r.update c1).2.1 = false ∧
    (r.update c1).1.compCh.buf = some c1 ∧
    ((r.start).1.stop).1.actionCh.buf = some ActionMode.stop ∧
    ((r.start).1.stop).2.1 = false ∧
    ((r.update c1).1.update c2).1.compCh.buf = some c2 ∧
    ((r.update c1).1.update c2).2.1 = false :=
  ⟨rfl, rfl, rfl, rfl, rfl, rfl, rfl, rfl, rfl, rfl, rfl, rfl, rfl, rfl, rfl, rfl⟩

/-- C9: `newServiceRuntime(comp)` errors exactly when the component bears a
shipper specification, lacks an `InputSpec`, or has no `Service` block in its
spec; every accepted component yields a supervisor whose initial state is
`Stopped` with message "Stopped: <name> service". -/
theorem c9_construction (comp : Component) :
    ((newServiceRuntime comp).toOption.isNone = rejectedBySpec comp) ∧
    (match newServiceRuntime comp with
     | Except.ok s =>
         s.state.State = UnitState.Stopped ∧
         s.state.Message = "Stopped: " ++ comp.svcName ++ " service"
     | Except.error _ => rejectedBySpec comp = true) := by
  unfold newServiceRuntime rejectedBySpec
  rcases hsh : comp.ShipperSpec with _ | u
  · rcases hin : comp.InputSpec with _ | i
    · simp [hsh, hin, Except.toOption]
    · rcases hsv : i.Spec.Service with _ | sv
      · simp [hsh, hin, hsv, Except.toOption]
      · simp [hsh, hin, hsv, Except.toOption,
          ComponentState.compState_fst_State, ComponentState.compState_fst_Message]
  · simp [hsh, Except.toOption]

/-- C8: each of the `check`, `install` and `uninstall` wrappers returns
`ErrOperationSpecUndefined` without invoking `executeServiceCommand` when its
operation spec is absent, and in the loop the error surfaced from the start
path forces the state to `Failed`. -/
theorem c8_missing_op_spec (comp : Component) (exec : ExecFn) (s : SvcState)
    (h1 : comp.checkSpec = none) (h2 : comp.installSpec = none)
    (h3 : comp.uninstallSpec = none) (hs : s.comp = comp) :
    comp.check exec = (some ErrV.opSpecUndefined, []) ∧
    comp.install exec = (some ErrV.opSpecUndefined, []) ∧
    uninstallService comp exec = (some ErrV.opSpecUndefined, []) ∧
    (handleActionStart s none exec).1.state.State = UnitState.Failed := by
  refine ⟨?_, ?_, ?_, ?_⟩
  · simp [Component.check, h1]
  · simp [Component.install, h2]
  · simp [uninstallService, h3]
  · simp only [handleActionStart, SvcState.startSvc, hs]
    simp only [Component.check, Component.install, h1, h2]
    exact SvcState.forceCompState_state_State _ _ _

/-- C8 witness: at the endpoint-like component with no operation specs, all
three wrappers return the sentinel with no execution, and the start path
forces `Failed`. -/
theorem c8_missing_op_spec_witness :
    compNoOps.check execOk = (some ErrV.opSpecUndefined, []) ∧
    compNoOps.install execOk = (some ErrV.opSpecUndefined, []) ∧
    uninstallService compNoOps execOk = (some ErrV.opSpecUndefined, []) ∧
    (handleActionStart sNoOps none execOk).1.state.State = UnitState.Failed :=
  c8_missing_op_spec compNoOps execOk sNoOps rfl rfl rfl rfl

theorem Event.obsAgrees_of_not_observed (t : ComponentState) (e : Event)
    (h : e.isObserved = false) : Event.obsAgrees t e = true := by
  cases e
  case observed cs => simp [Event.isObserved] at h
  all_goals rfl

theorem all_obsAgrees_of_no_observed (l : List Event) (t : ComponentState)
    (h : l.all (fun e => !e.isObserved) = true) : l.all (Event.obsAgrees t) = true := by
  simp only [List.all_eq_true] at h ⊢
  intro e he
  exact Event.obsAgrees_of_not_observed t e (by simpa using h e he)

theorem uninstallService_no_observed (c : Component) (exec : ExecFn) :
    ((uninstallService c exec).2).all (fun e => !e.isObserved) = true := by
  unfold uninstallService
  split
  · rfl
  · split <;> rfl

theorem forceCompState_all_obsAgrees (s : SvcState) (st : UnitState) (msg : String) :
    ((s.forceCompState st msg).2.all
      (Event.obsAgrees (s.forceCompState st msg).1.state)) = true := by
  unfold SvcState.forceCompState
  dsimp only
  split <;> simp [Event.obsAgrees]

theorem stopSvc_state_State (s : SvcState) (td aw : Bool) (exec : ExecFn) :
    (s.stopSvc td aw exec).1.state.State = UnitState.Stopped := by
  unfold SvcState.stopSvc
  dsimp only
  exact SvcState.forceCompState_state_State _ _ _

theorem stopSvc_state_Message (s : SvcState) (td aw : Bool) (exec : ExecFn) :
    (s.stopSvc td aw exec).1.state.Message = "Stopped: " ++ s.name ++ " service runtime" := by
  unfold SvcState.stopSvc
  dsimp only
  exact SvcState.forceCompState_state_Message _ _ _

theorem stopSvc_all_obsAgrees (s : SvcState) (td aw : Bool) (exec : ExecFn) :
    ((s.stopSvc td aw exec).2.all
      (Event.obsAgrees (s.stopSvc td aw exec).1.state)) = true := by
  unfold SvcState.stopSvc
  dsimp only
  simp only [List.all_append, Bool.and_eq_true]
  refine ⟨?_, forceCompState_all_obsAgrees _ _ _⟩
  apply all_obsAgrees_of_no_observed
  split
  · simp only [List.all_append, Bool.and_eq_true]
    refine ⟨?_, uninstallService_no_observed _ _⟩
    split
    · split
      · rfl
      · split <;> rfl
    · rfl
  · rfl

/-- C1: every `Teardown` action ends with the state forced to `Stopped` with
message "Stopped: <name> service runtime", regardless of whether `uninstall`
fails (its error is not propagated: the handler returns no error by type),
and every observation emitted during the action is that final `Stopped`
snapshot. -/
theorem c1_teardown_reaches_stopped (s : SvcState) (awaitRes : Bool) (exec : ExecFn) :
    (handleActionStop s true awaitRes exec).1.state.State = UnitState.Stopped ∧
    (handleActionStop s true awaitRes exec).1.state.Message =
      "Stopped: " ++ s.name ++ " service runtime" ∧
    ((handleActionStop s true awaitRes exec).2.all
      (Event.obsAgrees (handleActionStop s true awaitRes exec).1.state)) = true := by
  refine ⟨stopSvc_state_State _ _ _ _, stopSvc_state_Message _ _ _ _, ?_⟩
  unfold handleActionStop
  dsimp only
  simp only [List.all_append, Bool.and_eq_true]
  refine ⟨?_, stopSvc_all_obsAgrees _ _ _ _⟩
  simp [List.all_append, cisStopEvents_all_obsAgrees, Event.obsAgrees]

theorem isRunning_true_of_State {cs : ComponentState}
    (h : cs.State = UnitState.Healthy ∨ cs.State = UnitState.Degraded ∨
         cs.State = UnitState.Failed ∨ cs.State = UnitState.Starting) :
    isRunning cs = true := by
  unfold isRunning
  rcases h with h | h | h | h <;> rw [h] <;> rfl

theorem tickN_ladder_inv (s : SvcState) (hH : s.state.State = UnitState.Healthy)
    (hlc : s.lastCheckin = none) (hm : s.missedCheckins = 0) (nows : Nat → Nat) :
    ∀ k : Nat,
      (afterTicks k nows s).missedCheckins = k ∧
      (afterTicks k nows s).lastCheckin = none ∧
      (afterTicks k nows s).state.State =
        (if k = 0 then UnitState.Healthy
         else if k < maxCheckinMisses then UnitState.Degraded else UnitState.Failed) := by
  intro k
  induction k with
  | zero => exact ⟨hm, hlc, hH⟩
  | succ n ih =>
    obtain ⟨ihm, ihlc, ihst⟩ := ih
    have hrun : isRunning (afterTicks n nows s).state = true := by
      apply isRunning_true_of_State
      rw [ihst]
      by_cases h0 : n = 0
      · simp [h0]
      · by_cases h3 : n < maxCheckinMisses <;> simp [h0, h3]
    have hnm : (afterTicks n nows s).nextMissed (nows n) = n + 1 := by
      unfold SvcState.nextMissed
      rw [ihlc, ihm]
    have hstep : afterTicks (n + 1) nows s =
        (checkStatusFn (afterTicks n nows s) (nows n)).1 := rfl
    rw [hstep]
    unfold checkStatusFn
    rw [if_pos hrun]
    dsimp only
    rw [hnm]
    have h0 : ¬(n + 1 = 0) := Nat.succ_ne_zero n
    simp only [if_neg h0]
    by_cases h3 : n + 1 < maxCheckinMisses
    · simp only [if_pos h3]
      exact ⟨SvcState.compStateMissed_missed _ _ _,
        (SvcState.compStateMissed_lastCheckin _ _ _).trans ihlc,
        SvcState.compStateMissed_state_State _ _ _⟩
    · simp only [if_neg h3]
      exact ⟨SvcState.forceCompState_missed _ _ _,
        (SvcState.forceCompState_lastCheckin _ _ _).trans ihlc,
        SvcState.forceCompState_state_State _ _ _⟩

/-- C2: with the supervisor healthy and no check-in ever processed, after `k`
watchdog ticks `missedCheckins = k`, the state is `Healthy` iff `k = 0`,
`Degraded` iff `0 < k < maxCheckinMisses` and `Failed` iff
`k ≥ maxCheckinMisses`; and every tick of a running supervisor increments
`missedCheckins` when `lastCheckin` is zero or `now - lastCheckin` exceeds
the check-in period, and resets it to 0 otherwise. -/
theorem c2_degradation_ladder (s : SvcState) (hH : s.state.State = UnitState.Healthy)
    (hlc : s.lastCheckin = none) (hm : s.missedCheckins = 0)
    (k : Nat) (nows : Nat → Nat) (s2 : SvcState) (now2 : Nat)
    (hrun2 : isRunning s2.state = true) :
    (afterTicks k nows s).missedCheckins = k ∧
    ((afterTicks k nows s).state.State = UnitState.Healthy ↔ k = 0) ∧
    ((afterTicks k nows s).state.State = UnitState.Degraded ↔
      0 < k ∧ k < maxCheckinMisses) ∧
    ((afterTicks k nows s).state.State = UnitState.Failed ↔ maxCheckinMisses ≤ k) ∧
    (checkStatusFn s2 now2).1.missedCheckins =
      (match s2.lastCheckin with
       | none => s2.missedCheckins + 1
       | some t => if now2 - t > s2.checkinPeriod then s2.missedCheckins + 1 else 0) := by
  obtain ⟨h1, _, h3⟩ := tickN_ladder_inv s hH hlc hm nows k
  refine ⟨h1, ?_, ?_, ?_, ?_⟩
  · rw [h3]
    by_cases hk0 : k = 0
    · simp [hk0]
    · by_cases hk3 : k < maxCheckinMisses <;> simp [hk0, hk3]
  · rw [h3]
    by_cases hk0 : k = 0
    · simp [hk0]
    · by_cases hk3 : k < maxCheckinMisses <;> simp [hk0, hk3] <;> omega
  · rw [h3]
    by_cases hk0 : k = 0
    · simp [hk0, maxCheckinMisses]
    · by_cases hk3 : k < maxCheckinMisses <;> simp [hk0, hk3] <;> omega
  · show (checkStatusFn s2 now2).1.missedCheckins = s2.nextMissed now2
    unfold checkStatusFn
    rw [if_pos hrun2]
    dsimp only
    split
    · exact SvcState.compStateMissed_missed _ _ _
    · split
      · exact SvcState.compStateMissed_missed _ _ _
      · exact SvcState.forceCompState_missed _ _ _

/-- C2 witness: the endpoint fixture, four silent ticks, and one tick of a
healthy supervisor that checked in at time 5 evaluated at time 7. -/
theorem c2_degradation_ladder_witness :
    (afterTicks 4 (fun _ => 0) sHealthy).missedCheckins = 4 ∧
    ((afterTicks 4 (fun _ => 0) sHealthy).state.State = UnitState.Healthy ↔ 4 = 0) ∧
    ((afterTicks 4 (fun _ => 0) sHealthy).state.State = UnitState.Degraded ↔
      0 < 4 ∧ 4 < maxCheckinMisses) ∧
    ((afterTicks 4 (fun _ => 0) sHealthy).state.State = UnitState.Failed ↔
      maxCheckinMisses ≤ 4) ∧
    (checkStatusFn sHealthyC 7).1.missedCheckins =
      (match sHealthyC.lastCheckin with
       | none => sHealthyC.missedCheckins + 1
       | some t => if 7 - t > sHealthyC.checkinPeriod then sHealthyC.missedCheckins + 1
                   else 0) :=
  c2_degradation_ladder sHealthy rfl rfl rfl 4 (fun _ => 0) sHealthyC 7 rfl

/-- C7 counterexample: at the endpoint fixture already degraded once, the
second silent tick computes `missedCheckins = 2` and `Degraded`, but the
emitted message is "Degraded: endpoint missed 2 check-ins" (without the word
"service"), not the claimed "Degraded: endpoint service missed 2 check-ins". -/
theorem c7_degraded_message_cex :
    (checkStatusFn sDegraded1 0).1.state.State = UnitState.Degraded ∧
    (checkStatusFn sDegraded1 0).1.missedCheckins = 2 ∧
    (checkStatusFn sDegraded1 0).1.state.Message = "Degraded: endpoint missed 2 check-ins" ∧
    (checkStatusFn sDegraded1 0).1.state.Message ≠
      "Degraded: endpoint service missed 2 check-ins" := by
  refine ⟨rfl, rfl, by decide, by decide⟩

/-- C7 (amended): on a watchdog tick of a running supervisor whose new
missed-check-in count `N` satisfies `1 ≤ N < maxCheckinMisses`, the state is
set to `Degraded`; the message is "Degraded: <name> service missed 1
check-in" when `N = 1` and "Degraded: <name> missed N check-ins" (without
the word "service") for `N ≥ 2`. -/
theorem c7_degraded_message_amended (s : SvcState) (now : Nat)
    (hrun : isRunning s.state = true)
    (h1 : 1 ≤ s.nextMissed now) (h2 : s.nextMissed now < maxCheckinMisses) :
    (checkStatusFn s now).1.state.State = UnitState.Degraded ∧
    (checkStatusFn s now).1.state.Message =
      (if s.nextMissed now = 1
       then "Degraded: " ++ s.name ++ " service missed 1 check-in"
       else "Degraded: " ++ s.name ++ " missed " ++ toString (s.nextMissed now)
         ++ " check-ins") := by
  unfold checkStatusFn
  rw [if_pos hrun]
  dsimp only
  have h0 : ¬(s.nextMissed now = 0) := by omega
  rw [if_neg h0, if_pos h2]
  refine ⟨SvcState.compStateMissed_state_State _ _ _, ?_⟩
  unfold SvcState.compStateMissed
  dsimp only
  rw [ComponentState.compState_fst_Message]
  rfl

/-- C7 witness for the amended claim: the degraded-once endpoint fixture at
its second silent tick. -/
theorem c7_degraded_message_amended_witness :
    (checkStatusFn sDegraded1 0).1.state.State = UnitState.Degraded ∧
    (checkStatusFn sDegraded1 0).1.state.Message =
      (if sDegraded1.nextMissed 0 = 1
       then "Degraded: " ++ sDegraded1.name ++ " service missed 1 check-in"
       else "Degraded: " ++ sDegraded1.name ++ " missed " ++ toString (sDegraded1.nextMissed 0)
         ++ " check-ins") :=
  c7_degraded_message_amended sDegraded1 0 rfl (by decide) (by decide)

theorem startingFix_of_ne {cs : ComponentState} (name : String)
    (h : cs.State ≠ UnitState.Starting) : cs.startingFix name = (cs, false) := by
  unfold ComponentState.startingFix
  rw [if_neg h]

theorem processCheckinFn_of_failed (s : SvcState) (checkin : CheckinObs) (t : Nat)
    (hF : s.state.State = UnitState.Failed) :
    (processCheckinFn s checkin t).1 =
      { s with state := ((s.state.syncCheckin checkin).1.cleanupStopped).1,
               lastCheckin := some t } := by
  have hrun : isRunning s.state = true := isRunning_true_of_State (Or.inr (Or.inr (Or.inl hF)))
  have hfix : s.state.startingFix s.name = (s.state, false) :=
    startingFix_of_ne s.name (by rw [hF]; intro h; cases h)
  unfold processCheckinFn
  rw [hfix]
  dsimp only
  rw [if_pos hrun]

/-- C10: `Failed` is a running state, so a check-in arriving after the
watchdog has forced `Failed` is still processed (`lastCheckin` becomes the
check-in time), and a subsequent watchdog tick within the check-in period
resets `missedCheckins` to 0 and sets the state back to `Healthy`: `Failed`
is recoverable without a restart. -/
theorem c10_failed_recoverable (s : SvcState) (checkin : CheckinObs) (t now : Nat)
    (hF : s.state.State = UnitState.Failed)
    (hle : now - t ≤ s.checkinPeriod) :
    isRunning s.state = true ∧
    (processCheckinFn s checkin t).1.lastCheckin = some t ∧
    (checkStatusFn (processCheckinFn s checkin t).1 now).1.missedCheckins = 0 ∧
    (checkStatusFn (processCheckinFn s checkin t).1 now).1.state.State =
      UnitState.Healthy := by
  have hrun : isRunning s.state = true := isRunning_true_of_State (Or.inr (Or.inr (Or.inl hF)))
  have hP := processCheckinFn_of_failed s checkin t hF
  have hPState : (processCheckinFn s checkin t).1.state.State = UnitState.Failed := by
    rw [hP]
    dsimp only
    rw [ComponentState.cleanupStopped_State, ComponentState.syncCheckin_State, hF]
  have hrun2 : isRunning (processCheckinFn s checkin t).1.state = true :=
    isRunning_true_of_State (Or.inr (Or.inr (Or.inl hPState)))
  have hlc2 : (processCheckinFn s checkin t).1.lastCheckin = some t := by rw [hP]
  have hper : (processCheckinFn s checkin t).1.checkinPeriod = s.checkinPeriod := by
    rw [hP]
    rfl
  have hnm : (processCheckinFn s checkin t).1.nextMissed now = 0 := by
    unfold SvcState.nextMissed
    rw [hlc2]
    dsimp only
    rw [if_neg]
    rw [hper]
    exact Nat.not_lt.mpr hle
  refine ⟨hrun, hlc2, ?_, ?_⟩
  · unfold checkStatusFn
    rw [if_pos hrun2]
    dsimp only
    rw [hnm]
    simp only [if_pos]
    exact SvcState.compStateMissed_missed _ _ _
  · unfold checkStatusFn
    rw [if_pos hrun2]
    dsimp only
    rw [hnm]
    simp only [if_pos]
    exact SvcState.compStateMissed_state_State _ _ _

/-- C10 witness: the failed endpoint fixture, a check-in at time 5 and a tick
at time 7 (within the default 30-second period). -/
theorem c10_failed_recoverable_witness :
    isRunning sFailed.state = true ∧
    (processCheckinFn sFailed (CheckinObs.mk []) 5).1.lastCheckin = some 5 ∧
    (checkStatusFn (processCheckinFn sFailed (CheckinObs.mk []) 5).1 7).1.missedCheckins = 0 ∧
    (checkStatusFn (processCheckinFn sFailed (CheckinObs.mk []) 5).1 7).1.state.State =
      UnitState.Healthy :=
  c10_failed_recoverable sFailed (CheckinObs.mk []) 5 7 rfl (by decide)

theorem filter_ce_of_obs_ite (c : Bool) (x : ComponentState) :
    ((if c then [Event.observed x] else []).filter Event.isCheckinExpected) = [] := by
  cases c <;> rfl

theorem filter_obs_of_ce_ite (c : Bool) (x : ComponentState) :
    ((if c then [Event.checkinExpected x] else []).filter Event.isObserved) = [] := by
  cases c <;> rfl

theorem filter_ce_of_ce_ite (c : Bool) (x : ComponentState) :
    ((if c then [Event.checkinExpected x] else []).filter Event.isCheckinExpected) =
      (if c then [Event.checkinExpected x] else []) := by
  cases c <;> rfl

theorem length_filter_obs_ite (c : Bool) (x : ComponentState) :
    (((if c then [Event.observed x] else []).filter Event.isObserved)).length =
      (if c then 1 else 0) := by
  cases c <;> rfl

/-- C6: a check-in arriving while the supervisor is `Stopping` or `Stopped`
is ignored (`lastCheckin` and everything else unchanged, no events);
otherwise `lastCheckin` becomes the check-in time, the observed units are
merged (and stopped units pruned), `CheckinExpected` is sent iff this is the
first check-in ever or the state is unsettled after the merge, one
observation is emitted iff anything changed, and a second one iff
`cleanupStopped` pruned a unit. -/
theorem c6_process_checkin (s : SvcState) (checkin : CheckinObs) (now : Nat) :
    if s.state.State = UnitState.Stopping ∨ s.state.State = UnitState.Stopped then
      (processCheckinFn s checkin now).1 = s ∧ (processCheckinFn s checkin now).2 = []
    else
      (processCheckinFn s checkin now).1.lastCheckin = some now ∧
      (processCheckinFn s checkin now).1.state =
        (((s.state.startingFix s.name).1.syncCheckin checkin).1.cleanupStopped).1 ∧
      ((processCheckinFn s checkin now).2.filter Event.isCheckinExpected) =
        (if s.lastCheckin.isNone
            || ((s.state.startingFix s.name).1.syncCheckin checkin).1.unsettled
         then [Event.checkinExpected
            ((((s.state.startingFix s.name).1.syncCheckin checkin).1).toCheckinExpected)]
         else []) ∧
      ((processCheckinFn s checkin now).2.filter Event.isObserved).length =
        ((if (s.state.startingFix s.name).2
             || ((s.state.startingFix s.name).1.syncCheckin checkin).2
          then 1 else 0) +
         (if ((((s.state.startingFix s.name).1.syncCheckin checkin).1.cleanupStopped)).2
          then 1 else 0)) := by
  by_cases hstop : s.state.State = UnitState.Stopping ∨ s.state.State = UnitState.Stopped
  · rw [if_pos hstop]
    have hfix : s.state.startingFix s.name = (s.state, false) :=
      startingFix_of_ne s.name (by rcases hstop with h | h <;> rw [h] <;> intro hh <;> cases hh)
    have hnr : ¬(isRunning s.state = true) := by
      unfold isRunning
      rcases hstop with h | h <;> rw [h] <;> decide
    unfold processCheckinFn
    rw [hfix]
    dsimp only
    rw [if_neg hnr]
    exact ⟨rfl, rfl⟩
  · rw [if_neg hstop]
    push_neg at hstop
    have hrun : isRunning (s.state.startingFix s.name).1 = true := by
      unfold ComponentState.startingFix
      split
      · rfl
      · simp only [isRunning, Bool.and_eq_true, decide_eq_true_eq]
        exact ⟨hstop.1, hstop.2⟩
    unfold processCheckinFn
    rw [if_pos hrun]
    dsimp only
    refine ⟨rfl, rfl, ?_, ?_⟩
    · simp only [List.filter_append, filter_ce_of_obs_ite, filter_ce_of_ce_ite,
        List.append_nil]
    · simp only [List.filter_append, List.length_append, filter_obs_of_ce_ite,
        length_filter_obs_ite, List.length_nil, Nat.zero_add]

theorem check_all_retry_false (c : Component) (exec : ExecFn) :
    (c.check exec).2.all (Event.execRetryIs false) = true := by
  unfold Component.check
  split
  · rfl
  · split <;> rfl

theorem install_all_retry_true (c : Component) (exec : ExecFn) :
    (c.install exec).2.all (Event.execRetryIs true) = true := by
  unfold Component.install
  split
  · rfl
  · split <;> rfl

theorem cisStopEvents_filter_exec (c : Option Nat) :
    (cisStopEvents c).filter Event.isExecCall = [] := by
  cases c <;> rfl

theorem forceCompState_filter_exec (s : SvcState) (st : UnitState) (msg : String) :
    ((s.forceCompState st msg).2.filter Event.isExecCall) = [] := by
  unfold SvcState.forceCompState
  dsimp only
  split <;> rfl

theorem check_filter_exec (c : Component) (exec : ExecFn) :
    ((c.check exec).2.filter Event.isExecCall) = (c.check exec).2 := by
  unfold Component.check
  split
  · rfl
  · split <;> rfl

theorem install_filter_exec (c : Component) (exec : ExecFn) :
    ((c.install exec).2.filter Event.isExecCall) = (c.install exec).2 := by
  unfold Component.install
  split
  · rfl
  · split <;> rfl

theorem prefix_append1 {α : Type} (a x : List α) : List.IsPrefix a (a ++ x) :=
  ⟨x, rfl⟩

theorem prefix_append3 {α : Type} (a x y z : List α) :
    List.IsPrefix a (((a ++ x) ++ y) ++ z) :=
  ⟨x ++ y ++ z, by simp [List.append_assoc]⟩

theorem prefix_append4 {α : Type} (a x y z w : List α) :
    List.IsPrefix a ((((a ++ x) ++ y) ++ z) ++ w) :=
  ⟨x ++ y ++ z ++ w, by simp [List.append_assoc]⟩

/-- C5: the `actionStart` branch resets `lastCheckin` and `missedCheckins`,
first stops the check-in timer and any prior connection-info server, starts a
new connection-info server on the configured port, forces `Starting`, runs
`check` without retry and, when it fails, `install` with retry; if the
connection-info server cannot start or install fails, the server is left
stopped and the state is forced to `Failed`; on success the timer is re-armed
with the check-in period. -/
theorem c5_action_start (s : SvcState) (cisRes : Option String) (exec : ExecFn) :
    (handleActionStart s cisRes exec).1.lastCheckin = none ∧
    (handleActionStart s cisRes exec).1.missedCheckins = 0 ∧
    List.IsPrefix ([Event.timerStopped] ++ cisStopEvents s.cis)
      (handleActionStart s cisRes exec).2 ∧
    ((s.comp.check exec).2.all (Event.execRetryIs false) = true) ∧
    ((s.comp.install exec).2.all (Event.execRetryIs true) = true) ∧
    (match cisRes with
     | some _ =>
       (handleActionStart s cisRes exec).1.state.State = UnitState.Failed ∧
       (handleActionStart s cisRes exec).1.cis = none ∧
       (handleActionStart s cisRes exec).1.timer = none ∧
       ((handleActionStart s cisRes exec).2.filter Event.isExecCall) = []
     | none =>
       Event.cisStarted s.comp.cport ∈ (handleActionStart s cisRes exec).2 ∧
       (∃ c, Event.mut true c UnitState.Starting
          ("Starting: " ++ s.name ++ " service runtime")
            ∈ (handleActionStart s cisRes exec).2) ∧
       (match (s.comp.check exec).1 with
        | none =>
          (handleActionStart s cisRes exec).1.state.State = UnitState.Starting ∧
          (handleActionStart s cisRes exec).1.cis = some s.comp.cport ∧
          (handleActionStart s cisRes exec).1.timer = some s.checkinPeriod ∧
          ((handleActionStart s cisRes exec).2.filter Event.isExecCall) =
            (s.comp.check exec).2
        | some _ =>
          match (s.comp.install exec).1 with
          | none =>
            (handleActionStart s cisRes exec).1.state.State = UnitState.Starting ∧
            (handleActionStart s cisRes exec).1.cis = some s.comp.cport ∧
            (handleActionStart s cisRes exec).1.timer = some s.checkinPeriod ∧
            ((handleActionStart s cisRes exec).2.filter Event.isExecCall) =
              (s.comp.check exec).2 ++ (s.comp.install exec).2
          | some _ =>
            (handleActionStart s cisRes exec).1.state.State = UnitState.Failed ∧
            (handleActionStart s cisRes exec).1.cis = none ∧
            (handleActionStart s cisRes exec).1.timer = none ∧
            ((handleActionStart s cisRes exec).2.filter Event.isExecCall) =
              (s.comp.check exec).2 ++ (s.comp.install exec).2)) := by
  unfold handleActionStart SvcState.startSvc
  dsimp only
  rcases cisRes with _ | m
  · rcases hc : (s.comp.check exec).1 with _ | e
    · simp only [hc]
      try dsimp only
      refine ⟨rfl, rfl, prefix_append3 _ _ _ _,
        check_all_retry_false _ _, install_all_retry_true _ _, ?_, ?_, ?_⟩
      · simp [List.mem_append]
      · exact ⟨_, List.mem_append_left _ (List.mem_append_right _
          (List.mem_append_left _ (List.mem_append_left _ (List.mem_cons_self _ _))))⟩
      · refine ⟨SvcState.forceCompState_state_State _ _ _,
          by first | rfl | trivial, by first | rfl | trivial, ?_⟩
        simp [List.filter_append, cisStopEvents_filter_exec,
          forceCompState_filter_exec, check_filter_exec, Event.isExecCall]
    · rcases hi : (s.comp.install exec).1 with _ | e2
      · simp only [hc, hi]
        try dsimp only
        refine ⟨rfl, rfl, prefix_append3 _ _ _ _,
          check_all_retry_false _ _, install_all_retry_true _ _, ?_, ?_, ?_⟩
        · simp [List.mem_append]
        · exact ⟨_, List.mem_append_left _ (List.mem_append_right _
            (List.mem_append_left _ (List.mem_append_left _
              (List.mem_append_left _ (List.mem_cons_self _ _)))))⟩
        · refine ⟨SvcState.forceCompState_state_State _ _ _,
          by first | rfl | trivial, by first | rfl | trivial, ?_⟩
          simp [List.filter_append, cisStopEvents_filter_exec,
            forceCompState_filter_exec, check_filter_exec, install_filter_exec,
            Event.isExecCall]
      · simp only [hc, hi]
        try dsimp only
        refine ⟨rfl, rfl, prefix_append4 _ _ _ _ _,
          check_all_retry_false _ _, install_all_retry_true _ _, ?_, ?_, ?_⟩
        · simp [List.mem_append]
        · exact ⟨_, List.mem_append_left _ (List.mem_append_left _
            (List.mem_append_right _ (List.mem_append_left _ (List.mem_append_left _
              (List.mem_append_left _ (List.mem_cons_self _ _))))))⟩
        · refine ⟨SvcState.forceCompState_state_State _ _ _,
          by first | rfl | trivial, by first | rfl | trivial, ?_⟩
          simp [List.filter_append, cisStopEvents_filter_exec,
            forceCompState_filter_exec, check_filter_exec, install_filter_exec,
            Event.isExecCall]
  · dsimp only
    refine ⟨rfl, rfl, prefix_append1 _ _,
      check_all_retry_false _ _, install_all_retry_true _ _,
      SvcState.forceCompState_state_State _ _ _, rfl, rfl, ?_⟩
    simp [List.filter_append, cisStopEvents_filter_exec,
      forceCompState_filter_exec, Event.isExecCall]

theorem forceCompState_any_mut (s : SvcState) (st : UnitState) (msg : String) :
    (s.forceCompState st msg).2.any Event.isMut = true := by
  unfold SvcState.forceCompState
  dsimp only
  split <;> rfl

theorem compStateMissed_any_mut (s : SvcState) (st : UnitState) (missed : Nat) :
    (s.compStateMissed st missed).2.any Event.isMut = true := by
  unfold SvcState.compStateMissed
  dsimp only
  split <;> rfl

theorem startingFix_State (cs : ComponentState) (n : String) :
    (cs.startingFix n).1.State =
      (if cs.State = UnitState.Starting then UnitState.Healthy else cs.State) := by
  unfold ComponentState.startingFix
  split
  case isTrue h =>
    simp only [if_pos h]
  case isFalse h =>
    simp only [if_neg h]


theorem processCheckinFn_state_State (s : SvcState) (c : CheckinObs) (now : Nat) :
    (processCheckinFn s c now).1.state.State = (s.state.startingFix s.name).1.State := by
  unfold processCheckinFn
  dsimp only
  split
  · exact (ComponentState.cleanupStopped_State _).trans (ComponentState.syncCheckin_State _ _)
  · rfl

theorem processNewCompFn_state_State (s : SvcState) (c : Component) :
    (processNewCompFn s c).1.state.State = s.state.State := by
  unfold processNewCompFn
  dsimp only
  exact (ComponentState.syncUnits_State _ _).trans (ComponentState.syncExpected_State _ _)

/-- C3 counterexample: at a supervisor still in `Starting`, a processed
check-in changes `State` to `Healthy` through the direct field assignment at
the top of `processCheckin` — the step records no `forceState`/`compState`
call, yet an observation is emitted. -/
theorem c3_state_mutators_cex :
    (stepRun (StepInput.checkin (CheckinObs.mk []) 5) sStarting).1.state.State =
      UnitState.Healthy ∧
    sStarting.state.State = UnitState.Starting ∧
    ((stepRun (StepInput.checkin (CheckinObs.mk []) 5) sStarting).2.all
      (fun e => !e.isMut)) = true ∧
    ((stepRun (StepInput.checkin (CheckinObs.mk []) 5) sStarting).2.any
      Event.isObserved) = true := by
  refine ⟨rfl, rfl, by decide, by decide⟩

/-- C3 (amended): in every step of the supervisor, `State` changes only
through a recorded `forceState`/`compState` mutator call, except for the
direct `Starting` to `Healthy` field assignment in `processCheckin`, which
bypasses the mutators (and emits its observation via the changed flag). -/
theorem c3_state_mutators_amended (inp : StepInput) (s : SvcState)
    (h : (stepRun inp s).1.state.State ≠ s.state.State) :
    ((stepRun inp s).2.any Event.isMut = true) ∨
    (∃ c now, inp = StepInput.checkin c now ∧
      s.state.State = UnitState.Starting ∧
      (stepRun inp s).1.state.State = UnitState.Healthy) := by
  cases inp with
  | actionStart cisRes exec =>
    left
    unfold stepRun handleActionStart SvcState.startSvc
    dsimp only
    rcases cisRes with _ | m
    · rcases (s.comp.check exec).1 with _ | e
      · simp [List.any_append, forceCompState_any_mut]
      · rcases (s.comp.install exec).1 with _ | e2 <;>
          simp [List.any_append, forceCompState_any_mut]
    · simp [List.any_append, forceCompState_any_mut]
  | actionStop exec =>
    left
    unfold stepRun handleActionStop SvcState.stopSvc
    dsimp only
    simp [List.any_append, forceCompState_any_mut]
  | actionTeardown aw exec =>
    left
    unfold stepRun handleActionStop SvcState.stopSvc
    dsimp only
    simp [List.any_append, forceCompState_any_mut]
  | newComp c =>
    exact absurd (processNewCompFn_state_State s c) h
  | checkin c now =>
    by_cases hst : s.state.State = UnitState.Starting
    · right
      refine ⟨c, now, rfl, hst, ?_⟩
      rw [show (stepRun (StepInput.checkin c now) s).1.state.State =
            (processCheckinFn s c now).1.state.State from rfl,
          processCheckinFn_state_State, startingFix_State, if_pos hst]
    · exact absurd ((processCheckinFn_state_State s c now).trans
        (by rw [startingFix_State, if_neg hst])) h
  | tick now =>
    by_cases hr : isRunning s.state = true
    · left
      unfold stepRun checkStatusFn
      dsimp only
      rw [if_pos hr]
      try dsimp only
      split
      · exact compStateMissed_any_mut _ _ _
      · split
        · exact compStateMissed_any_mut _ _ _
        · exact forceCompState_any_mut _ _ _
    · refine absurd ?_ h
      show (checkStatusFn s now).1.state.State = s.state.State
      unfold checkStatusFn
      rw [if_neg hr]

/-- C3 witness for the amended claim: a watchdog tick of the healthy endpoint
fixture changes the state (to `Degraded`) and the step indeed records a
mutator call. -/
theorem c3_state_mutators_amended_witness :
    ((stepRun (StepInput.tick 0) sHealthy).2.any Event.isMut = true) ∨
    (∃ c now, StepInput.tick 0 = StepInput.checkin c now ∧
      sHealthy.state.State = UnitState.Starting ∧
      (stepRun (StepInput.tick 0) sHealthy).1.state.State = UnitState.Healthy) :=
  c3_state_mutators_amended (StepInput.tick 0) sHealthy (by decide)
